import Mathlib

/-
  Verification development for the agstore order-lifecycle backend.

  The definitions below are a shallow embedding of the order controller and
  payment-adjacent logic (createOrder, acceptOrder, confirmOrder,
  updateOrderStatus, pickupOrder, markOrderAsDelivered, confirmDeliveryReceipt,
  cancelOrder, updateDeliveryPartnerLocation) together with the mongoose
  schema defaults for Order and Product.  JavaScript numbers are embedded as
  rationals, stock counts as integers (a mongo $inc can drive them negative),
  database collections as functions from ids to optional documents, and the
  Socket.IO room table as a function from room-name strings to subscriber
  lists.  Presentational string fields (names, brands, addresses) and
  timestamps are elided; they are never consulted by any control-flow
  decision in the embedded code.
-/

namespace AgStore

abbrev ProductId := Nat
abbrev CustomerId := Nat
abbrev PartnerId := Nat
abbrev BranchId := Nat
abbrev OrderId := Nat
abbrev ClientId := Nat

/-- Product document: the pricing and stock fields consulted by the order
controller.  `discountPrice`, `subscriptionPrice`, `unitPerSubscription` are
optional schema fields. -/
structure Product where
  basePrice : ℚ
  discountPrice : Option ℚ := none
  subscriptionPrice : Option ℚ := none
  unitPerSubscription : Option Nat := none
  stock : Int
deriving Repr, DecidableEq

/-- JS `p.discountPrice ?? p.basePrice` (nullish coalescing). -/
def retailUnit (p : Product) : ℚ := p.discountPrice.getD p.basePrice

inductive Mode
  | retail
  | wholesale
deriving Repr, DecidableEq

/-- The object returned by calculateOptimalPricing in createOrder. -/
structure Pricing where
  mode : Mode
  unitsBought : Nat
  bundlesBought : Nat
  totalPrice : ℚ
  unitPrice : ℚ
deriving Repr, DecidableEq

/-- JS truthiness of an optional number: null, undefined and 0 are falsy. -/
def truthyQ : Option ℚ → Bool
  | some x => x ≠ 0
  | none => false

/-- JS truthiness of an optional natural number. -/
def truthyN : Option Nat → Bool
  | some n => n ≠ 0
  | none => false

/-- calculateOptimalPricing from createOrder: non-subscribers always get
retail; subscribers get the wholesale bundle split exactly when the product
has truthy subscriptionPrice and unitPerSubscription, at least one whole
bundle fits, and the wholesale total is strictly cheaper than retail. -/
def calculateOptimalPricing (isSubscriber : Bool) (p : Product) (unitsRequested : Nat) :
    Pricing :=
  if !isSubscriber then
    { mode := .retail, unitsBought := unitsRequested, bundlesBought := 0,
      totalPrice := retailUnit p * unitsRequested, unitPrice := retailUnit p }
  else
    let retailTotal : ℚ := retailUnit p * unitsRequested
    let wholesale? : Option Pricing :=
      if truthyQ p.subscriptionPrice && truthyN p.unitPerSubscription then
        let sp := p.subscriptionPrice.getD 0
        let ups := p.unitPerSubscription.getD 0
        let bundleCount := unitsRequested / ups
        let remaining := unitsRequested % ups
        if 0 < bundleCount then
          let wholesaleTotal : ℚ := (bundleCount : ℚ) * sp + (remaining : ℚ) * retailUnit p
          if wholesaleTotal < retailTotal then
            some { mode := .wholesale, unitsBought := unitsRequested,
                   bundlesBought := bundleCount, totalPrice := wholesaleTotal,
                   unitPrice := wholesaleTotal / (unitsRequested : ℚ) }
          else none
        else none
      else none
    match wholesale? with
    | some w => w
    | none =>
      { mode := .retail, unitsBought := unitsRequested, bundlesBought := 0,
        totalPrice := retailTotal, unitPrice := retailUnit p }

/-- A line of the request body: product id and requested unit count. -/
structure CartItem where
  id : ProductId
  count : Nat
deriving Repr, DecidableEq

/-- One entry of computedItems in createOrder: the looked-up product together
with its chosen pricing. -/
structure ComputedItem where
  productId : ProductId
  product : Product
  pricing : Pricing
deriving Repr, DecidableEq

inductive ApiErr
  | customerNotFound
  | branchNotFound
  | addressNotFound
  | orderNotFound
  | partnerNotFound
  | productNotFound (pid : ProductId)
  | insufficientStock (pid : ProductId)
  | partnerRequired
  | locationRequired
  | partnerBranchMismatch
  | notPending
  | notAccepted
  | notInProgress
  | notAwaitConfirmation
  | cannotConfirm
  | cannotUpdate
  | cannotCancel
  | reasonRequired
  | codNotEligible
  | unauthorized
  | invalidTransition (src tgt : String)
  | serverError
deriving Repr, DecidableEq

/-- First pass of createOrder over the request items: look up each product,
reject a missing product or insufficient stock, otherwise price the line. -/
def firstPass (products : ProductId → Option Product) (isSubscriber : Bool) :
    List CartItem → Except ApiErr (List ComputedItem)
  | [] => .ok []
  | item :: rest =>
    match products item.id with
    | none => .error (.productNotFound item.id)
    | some p =>
      if p.stock < (item.count : Int) then .error (.insufficientStock item.id)
      else
        match firstPass products isSubscriber rest with
        | .error e => .error e
        | .ok tail =>
          .ok ({ productId := item.id, product := p,
                 pricing := calculateOptimalPricing isSubscriber p item.count } :: tail)

/-- Sum of the line totals of a list of computed items (cartTotal). -/
def cartSum (cis : List ComputedItem) : ℚ :=
  (cis.map fun ci => ci.pricing.totalPrice).sum

/-- The forced-retail second pass of createOrder applied to one line: retail
mode, zero bundles, retail unit price.  (In the source the second pass maps
over the request items; each computed item carries the same product and the
same unit count, so mapping over computed items is the identical function.) -/
def forceRetail (ci : ComputedItem) : ComputedItem :=
  { ci with
    pricing :=
      { mode := .retail, unitsBought := ci.pricing.unitsBought, bundlesBought := 0,
        totalPrice := retailUnit ci.product * (ci.pricing.unitsBought : ℚ),
        unitPrice := retailUnit ci.product } }

def THRESHOLD : ℚ := 2500

/-- Result of the pricing portion of createOrder. -/
structure CartResult where
  items : List ComputedItem
  cartTotal : ℚ
  wholesaleEligible : Bool
deriving Repr, DecidableEq

/-- The pricing portion of createOrder: price every line, compute the
tentative cart total, gate wholesale on subscriber status and the 2500
threshold, and on gate failure recompute the whole cart at retail. -/
def priceCart (products : ProductId → Option Product) (isSubscriber : Bool)
    (items : List CartItem) : Except ApiErr CartResult :=
  match firstPass products isSubscriber items with
  | .error e => .error e
  | .ok cis =>
    let cartTotal := cartSum cis
    let wholesaleEligible := isSubscriber && (if THRESHOLD ≤ cartTotal then true else false)
    if wholesaleEligible then
      .ok { items := cis, cartTotal := cartTotal, wholesaleEligible := wholesaleEligible }
    else
      let cis' := cis.map forceRetail
      .ok { items := cis', cartTotal := cartSum cis', wholesaleEligible := wholesaleEligible }

/-- JS `Number(x.toFixed(2))`: round to two decimal places. -/
def round2 (q : ℚ) : ℚ := ((round (q * 100) : ℤ) : ℚ) / 100

/-- Order line-item snapshot as persisted by createOrder (string snapshot
fields elided). -/
structure OrderItem where
  product : ProductId
  mode : Mode
  unitsBought : Nat
  unitPrice : ℚ
  totalPrice : ℚ
  bundlesBought : Nat
  basePrice : ℚ
  discountPrice : Option ℚ
  subscriptionPrice : Option ℚ
  unitPerSubscription : Option Nat
deriving Repr, DecidableEq

/-- orderItems construction in createOrder: snapshot the product pricing
fields and round the persisted money amounts to two decimals. -/
def toOrderItem (ci : ComputedItem) : OrderItem :=
  { product := ci.productId, mode := ci.pricing.mode,
    unitsBought := ci.pricing.unitsBought,
    unitPrice := round2 ci.pricing.unitPrice,
    totalPrice := round2 ci.pricing.totalPrice,
    bundlesBought := ci.pricing.bundlesBought,
    basePrice := ci.product.basePrice,
    discountPrice := ci.product.discountPrice,
    subscriptionPrice := ci.product.subscriptionPrice,
    unitPerSubscription := ci.product.unitPerSubscription }

/-- deliveryFee in createOrder: the frontend value when supplied, otherwise 49
below a 1000 cart total and 0 from 1000 up. -/
def computeDeliveryFee (frontendDeliveryFee : Option ℚ) (cartTotal : ℚ) : ℚ :=
  match frontendDeliveryFee with
  | some f => f
  | none => if cartTotal < 1000 then 49 else 0

inductive OStatus
  | pending
  | accepted
  | inProgress
  | awaitconfirmation
  | delivered
  | cancelled
deriving Repr, DecidableEq

/-- The status strings, used by the invalid-transition error message. -/
def OStatus.str : OStatus → String
  | .pending => "pending"
  | .accepted => "accepted"
  | .inProgress => "in-progress"
  | .awaitconfirmation => "awaitconfirmation"
  | .delivered => "delivered"
  | .cancelled => "cancelled"

inductive DStatus
  | assigningPartner
  | partnerAssigned
  | onTheWay
  | dsDelivered
  | dsCancelled
deriving Repr, DecidableEq

inductive PayStatus
  | psPending
  | verified
  | failed
  | refunded
  | completed
deriving Repr, DecidableEq

/-- A latitude/longitude pair (addresses and metadata elided). -/
structure Loc where
  lat : ℚ
  lng : ℚ
deriving Repr, DecidableEq

/-- Order document: the fields read or written by the embedded controllers,
with mongoose schema defaults. -/
structure Order where
  customer : CustomerId
  branch : BranchId
  items : List OrderItem
  totalPrice : ℚ
  deliveryFee : ℚ
  status : OStatus := .pending
  deliveryStatus : DStatus := .assigningPartner
  deliveryPartner : Option PartnerId := none
  paymentStatus : PayStatus := .psPending
  pickupLocation : Loc := { lat := 0, lng := 0 }
  deliveryPersonLocation : Loc := { lat := 0, lng := 0 }
  cancellationReason : Option String := none
deriving Repr, DecidableEq

structure Customer where
  isSubscription : Bool
deriving Repr, DecidableEq

structure Partner where
  branch : BranchId
deriving Repr, DecidableEq

/-- The persistent world the controllers act on: the database collections plus
the Socket.IO room-membership table.  `addressOk` abbreviates the
addressId/default-address resolution of createOrder to one per-customer flag
(the address contents feed only elided geo fields). -/
structure St where
  customers : CustomerId → Option Customer
  partners : PartnerId → Option Partner
  branches : BranchId → Option Loc
  addressOk : CustomerId → Bool
  products : ProductId → Option Product
  orders : OrderId → Option Order
  rooms : String → List ClientId

/-- Point update of a product document. -/
def updProduct (ps : ProductId → Option Product) (pid : ProductId)
    (f : Product → Product) : ProductId → Option Product :=
  fun q => if q = pid then (ps pid).map f else ps q

/-- Mongo `$inc stock by -n` on one product (no-op when absent). -/
def decStock (ps : ProductId → Option Product) (pid : ProductId) (n : Nat) :
    ProductId → Option Product :=
  updProduct ps pid fun p => { p with stock := p.stock - (n : Int) }

/-- Mongo `$inc stock by n` on one product (no-op when absent). -/
def incStock (ps : ProductId → Option Product) (pid : ProductId) (n : Nat) :
    ProductId → Option Product :=
  updProduct ps pid fun p => { p with stock := p.stock + (n : Int) }

/-- Persist an order document at an id. -/
def updOrder (os : OrderId → Option Order) (oid : OrderId) (o : Order) :
    OrderId → Option Order :=
  fun q => if q = oid then some o else os q

/-- The stock (if any) of one product in a collection. -/
def stockAt (ps : ProductId → Option Product) (q : ProductId) : Option Int :=
  (ps q).map Product.stock

/-- Total units bought of one product across the line items of an order. -/
def unitsFor (q : ProductId) : List OrderItem → Nat
  | [] => 0
  | item :: rest => (if item.product = q then item.unitsBought else 0) + unitsFor q rest

/-- The room every order event is emitted to: the source publishes with
`io.to(orderId)`, i.e. the raw order id is the room key. -/
def orderEventRoom (oid : OrderId) : String := toString oid

/-- The room name handed to socketsLeave on terminal transitions: the source
concatenates the literal prefix "order-" with the order id. -/
def orderRoomLeaveName (oid : OrderId) : String := "order-" ++ toString oid

/-- `io.socketsLeave(room)`: every subscriber leaves the named room. -/
def socketsLeave (rooms : String → List ClientId) (room : String) :
    String → List ClientId :=
  fun r => if r = room then [] else rooms r

/-- The subscribers an `io.to(room).emit(...)` publish reaches. -/
def publishRecipients (st : St) (room : String) : List ClientId := st.rooms room

/-- Modelled from the spec: the server-side Socket.IO joinRoom handler is not
among the source files under src (the repository README shows clients emit
joinRoom with the raw order id, and the spec records that the raw order id is
used as the order-room key).  Joining subscribes the client to the room named
by the raw order id. -/
def joinOrderRoom (st : St) (oid : OrderId) (c : ClientId) : St :=
  { st with
    rooms := fun r => if r = orderEventRoom oid then c :: st.rooms r else st.rooms r }

inductive PaymentMode
  | cod
  | online
deriving Repr, DecidableEq

/-- Request body of createOrder (addressId folded into St.addressOk). -/
structure CreateReq where
  userId : CustomerId
  items : List CartItem
  branch : BranchId
  paymentMode : PaymentMode := .online
  frontendDeliveryFee : Option ℚ := none
  preview : Bool := false
deriving Repr, DecidableEq

inductive CreateOut
  | previewed (items : List OrderItem) (totalPrice deliveryFee : ℚ)
      (wholesaleEligible : Bool)
  | created (oid : OrderId) (o : Order)
deriving Repr, DecidableEq

/-- The unconditional per-line stock decrement loop of non-preview
createOrder (the low-stock console warning is observability only). -/
def createOrderDec : (ProductId → Option Product) → List OrderItem →
    (ProductId → Option Product)
  | ps, [] => ps
  | ps, oi :: rest => createOrderDec (decStock ps oi.product oi.unitsBought) rest

/-- createOrder: look up customer, branch and address, price the cart, handle
preview mode, gate COD on wholesale eligibility, decrement stock per line,
and persist the new pending order at the fresh id. -/
def createOrder (st : St) (freshId : OrderId) (req : CreateReq) :
    St × Except ApiErr CreateOut :=
  match st.customers req.userId with
  | none => (st, .error .customerNotFound)
  | some customer =>
    match st.branches req.branch with
    | none => (st, .error .branchNotFound)
    | some branchLoc =>
      if !st.addressOk req.userId then (st, .error .addressNotFound)
      else
        let isSubscriber := customer.isSubscription
        match priceCart st.products isSubscriber req.items with
        | .error e => (st, .error e)
        | .ok cr =>
          let orderItems := cr.items.map toOrderItem
          let deliveryFee := computeDeliveryFee req.frontendDeliveryFee cr.cartTotal
          if req.preview then
            (st, .ok (.previewed orderItems (round2 cr.cartTotal) deliveryFee
              cr.wholesaleEligible))
          else if req.paymentMode = .cod && !cr.wholesaleEligible then
            (st, .error .codNotEligible)
          else
            let products' := createOrderDec st.products orderItems
            let newOrder : Order :=
              { customer := req.userId, branch := req.branch, items := orderItems,
                totalPrice := round2 cr.cartTotal, deliveryFee := deliveryFee,
                status := .pending, deliveryStatus := .assigningPartner,
                deliveryPartner := none,
                paymentStatus := if req.paymentMode = .cod then .completed else .psPending,
                pickupLocation := branchLoc,
                deliveryPersonLocation := { lat := 0, lng := 0 },
                cancellationReason := none }
            ({ st with
               products := products',
               orders := updOrder st.orders freshId newOrder },
             .ok (.created freshId newOrder))

/-- The per-line loop of acceptOrder: for each line with a truthy product and
unit count, re-read the product, fail on a missing product or insufficient
stock, otherwise decrement and continue.  Decrements performed before a
failing line persist (each updateOne has already been applied). -/
def acceptLoop : (ProductId → Option Product) → List OrderItem →
    (ProductId → Option Product) × Option ApiErr
  | ps, [] => (ps, none)
  | ps, item :: rest =>
    if item.unitsBought ≠ 0 then
      match ps item.product with
      | none => (ps, some (.productNotFound item.product))
      | some product =>
        if product.stock < (item.unitsBought : Int) then
          (ps, some (.insufficientStock item.product))
        else
          acceptLoop (decStock ps item.product item.unitsBought) rest
    else
      acceptLoop ps rest

/-- acceptOrder: a pending order is claimed by a delivery partner of the same
branch; stock is re-validated and decremented line by line, then the order is
bound to the partner and marked accepted. -/
def acceptOrder (st : St) (oid : OrderId) (deliveryPartnerId? : Option PartnerId) :
    St × Except ApiErr Order :=
  match deliveryPartnerId? with
  | none => (st, .error .partnerRequired)
  | some pid =>
    match st.orders oid with
    | none => (st, .error .orderNotFound)
    | some order =>
      if order.status ≠ .pending then (st, .error .notPending)
      else
        match st.partners pid with
        | none => (st, .error .partnerNotFound)
        | some partner =>
          if partner.branch ≠ order.branch then (st, .error .partnerBranchMismatch)
          else
            match acceptLoop st.products order.items with
            | (ps, some e) => ({ st with products := ps }, .error e)
            | (ps, none) =>
              let order' :=
                { order with
                  status := .accepted,
                  deliveryPartner := some pid,
                  deliveryStatus := .partnerAssigned }
              ({ st with
                 products := ps,
                 orders := updOrder st.orders oid order' },
               .ok order')

/-- confirmOrder: any existing delivery partner may confirm an accepted
order; the order moves to in-progress and deliveryPartner is assigned to the
caller (there is no check against a previously bound partner). -/
def confirmOrder (st : St) (oid : OrderId) (userId : PartnerId)
    (deliveryPersonLocation : Loc) : St × Except ApiErr Order :=
  match st.partners userId with
  | none => (st, .error .partnerNotFound)
  | some _ =>
    match st.orders oid with
    | none => (st, .error .orderNotFound)
    | some order =>
      if order.status ≠ .accepted then (st, .error .cannotConfirm)
      else
        let order' :=
          { order with
            status := .inProgress,
            deliveryStatus := .partnerAssigned,
            deliveryPartner := some userId,
            deliveryPersonLocation := deliveryPersonLocation }
        ({ st with orders := updOrder st.orders oid order' }, .ok order')

/-- The validTransitions adjacency table of updateOrderStatus.  Note it has
no entry for pending. -/
def validTransitions : OStatus → Option (List OStatus)
  | .accepted => some [.inProgress]
  | .inProgress => some [.awaitconfirmation]
  | .awaitconfirmation => some [.delivered]
  | _ => none

/-- The switch in updateOrderStatus deriving deliveryStatus from the new
status (statuses outside the switch leave it unchanged). -/
def deriveDeliveryStatus (newStatus : OStatus) (old : DStatus) : DStatus :=
  match newStatus with
  | .inProgress => .onTheWay
  | .awaitconfirmation => .dsDelivered
  | .delivered => .dsDelivered
  | .cancelled => .dsCancelled
  | _ => old

/-- updateOrderStatus: guarded direct status set by the bound delivery
partner.  Dereferencing deliveryPartner on an order that has none throws a
TypeError which the catch block reports as an internal server error; a status
with no entry in the adjacency table is not checked at all.  Terminal targets
additionally empty the "order-" prefixed room. -/
def updateOrderStatus (st : St) (oid : OrderId) (userId : PartnerId)
    (newStatus : OStatus) (loc? : Option Loc) : St × Except ApiErr Order :=
  match st.partners userId with
  | none => (st, .error .partnerNotFound)
  | some _ =>
    match st.orders oid with
    | none => (st, .error .orderNotFound)
    | some order =>
      if order.status = .delivered ∨ order.status = .cancelled then
        (st, .error .cannotUpdate)
      else
        match order.deliveryPartner with
        | none => (st, .error .serverError)
        | some dp =>
          if dp ≠ userId then (st, .error .unauthorized)
          else
            let proceed : St × Except ApiErr Order :=
              let order' :=
                { order with
                  status := newStatus,
                  deliveryStatus :=
                    deriveDeliveryStatus newStatus order.deliveryStatus,
                  deliveryPersonLocation :=
                    loc?.getD order.deliveryPersonLocation }
              let rooms' :=
                if newStatus = .delivered ∨ newStatus = .cancelled then
                  socketsLeave st.rooms (orderRoomLeaveName oid)
                else st.rooms
              ({ st with orders := updOrder st.orders oid order', rooms := rooms' },
               .ok order')
            match validTransitions order.status with
            | some allowed =>
              if newStatus ∈ allowed then proceed
              else (st, .error (.invalidTransition order.status.str newStatus.str))
            | none => proceed

/-- pickupOrder: the bound partner moves an accepted order to in-progress. -/
def pickupOrder (st : St) (oid : OrderId) (deliveryPartnerId? : Option PartnerId)
    (pickupLoc? : Option Loc) : St × Except ApiErr Order :=
  match deliveryPartnerId? with
  | none => (st, .error .partnerRequired)
  | some pid =>
    match st.orders oid with
    | none => (st, .error .orderNotFound)
    | some order =>
      if order.status ≠ .accepted then (st, .error .notAccepted)
      else
        match order.deliveryPartner with
        | none => (st, .error .serverError)
        | some dp =>
          if dp ≠ pid then (st, .error .unauthorized)
          else
            let order' :=
              { order with
                status := .inProgress,
                deliveryStatus := .onTheWay,
                deliveryPersonLocation := pickupLoc?.getD order.pickupLocation }
            ({ st with orders := updOrder st.orders oid order' }, .ok order')

/-- markOrderAsDelivered: the bound partner moves an in-progress order to
awaitconfirmation (final-location metadata elided). -/
def markOrderAsDelivered (st : St) (oid : OrderId)
    (deliveryPartnerId? : Option PartnerId) (deliveryLoc? : Option Loc) :
    St × Except ApiErr Order :=
  match deliveryPartnerId? with
  | none => (st, .error .partnerRequired)
  | some pid =>
    match st.orders oid with
    | none => (st, .error .orderNotFound)
    | some order =>
      if order.status ≠ .inProgress then (st, .error .notInProgress)
      else
        match order.deliveryPartner with
        | none => (st, .error .serverError)
        | some dp =>
          if dp ≠ pid then (st, .error .unauthorized)
          else
            let order' :=
              { order with
                status := .awaitconfirmation,
                deliveryStatus := .dsDelivered,
                deliveryPersonLocation :=
                  deliveryLoc?.getD order.deliveryPersonLocation }
            ({ st with orders := updOrder st.orders oid order' }, .ok order')

/-- confirmDeliveryReceipt: the order's customer confirms an
awaitconfirmation order; the order is saved as delivered first, then the
events are emitted (an unset deliveryPartner throws after the save) and the
"order-" prefixed room is emptied. -/
def confirmDeliveryReceipt (st : St) (oid : OrderId) (userId : CustomerId) :
    St × Except ApiErr Order :=
  match st.orders oid with
  | none => (st, .error .orderNotFound)
  | some order =>
    if order.customer ≠ userId then (st, .error .unauthorized)
    else if order.status ≠ .awaitconfirmation then (st, .error .notAwaitConfirmation)
    else
      let order' := { order with status := .delivered }
      let stSaved := { st with orders := updOrder st.orders oid order' }
      match order.deliveryPartner with
      | none => (stSaved, .error .serverError)
      | some _ =>
        ({ stSaved with
           rooms := socketsLeave stSaved.rooms (orderRoomLeaveName oid) },
         .ok order')

/-- The stock-restoration loop of cancelOrder: increment stock back for every
line with a truthy product and unit count. -/
def cancelLoop : (ProductId → Option Product) → List OrderItem →
    (ProductId → Option Product)
  | ps, [] => ps
  | ps, item :: rest =>
    if item.unitsBought ≠ 0 then cancelLoop (incStock ps item.product item.unitsBought) rest
    else cancelLoop ps rest

/-- cancelOrder: a non-terminal order is cancelled with a required reason;
stock is restored per line, the order is saved as cancelled and the "order-"
prefixed room is emptied. -/
def cancelOrder (st : St) (oid : OrderId) (reason : String) :
    St × Except ApiErr Order :=
  if reason = "" then (st, .error .reasonRequired)
  else
    match st.orders oid with
    | none => (st, .error .orderNotFound)
    | some order =>
      if order.status = .delivered ∨ order.status = .cancelled then
        (st, .error .cannotCancel)
      else
        let order' :=
          { order with
            status := .cancelled,
            cancellationReason := some reason }
        let ps' := cancelLoop st.products order.items
        ({ st with
           products := ps',
           orders := updOrder st.orders oid order',
           rooms := socketsLeave st.rooms (orderRoomLeaveName oid) },
         .ok order')

/-- updateDeliveryPartnerLocation: the bound partner refreshes the live
location on the order (ETA computation and route data elided; they never
touch the fields the claims concern). -/
def updateDeliveryPartnerLocation (st : St) (oid : OrderId)
    (deliveryPartnerId? : Option PartnerId) (loc? : Option Loc) :
    St × Except ApiErr Order :=
  match deliveryPartnerId?, loc? with
  | some pid, some loc =>
    (match st.orders oid with
     | none => (st, .error .orderNotFound)
     | some order =>
       match order.deliveryPartner with
       | none => (st, .error .serverError)
       | some dp =>
         if dp ≠ pid then (st, .error .unauthorized)
         else
           let order' := { order with deliveryPersonLocation := loc }
           ({ st with orders := updOrder st.orders oid order' }, .ok order'))
  | _, _ => (st, .error .locationRequired)

instance {ε α : Type} [DecidableEq ε] [DecidableEq α] : DecidableEq (Except ε α) :=
  fun a b =>
    match a, b with
    | .error x, .error y =>
      if h : x = y then .isTrue (by rw [h])
      else .isFalse (fun hc => by cases hc; exact h rfl)
    | .error _, .ok _ => .isFalse (fun hc => by cases hc)
    | .ok _, .error _ => .isFalse (fun hc => by cases hc)
    | .ok x, .ok y =>
      if h : x = y then .isTrue (by rw [h])
      else .isFalse (fun hc => by cases hc; exact h rfl)

/-! Concrete documents and states used by the scenario theorems below. -/

/-- Product A of the retail scenario: basePrice 100, no discount, stock 10. -/
def prodA : Product := { basePrice := 100, stock := 10 }

/-- Product B of the retail scenario: basePrice 50, stock 10. -/
def prodB : Product := { basePrice := 50, stock := 10 }

/-- A low-stock product: basePrice 50, stock 3. -/
def prodLow : Product := { basePrice := 50, stock := 3 }

/-- A bundle-priced product: 2 retail units of price 10 per bundle of price 8. -/
def prodBundle : Product :=
  { basePrice := 10, stock := 100, subscriptionPrice := some 8,
    unitPerSubscription := some 2 }

/-- The spec's wholesale example product: retail unit 50, bundle of 5 at 200. -/
def prodW : Product :=
  { basePrice := 50, stock := 100, subscriptionPrice := some 200,
    unitPerSubscription := some 5 }

/-- The empty world. -/
def baseSt : St :=
  { customers := fun _ => none, partners := fun _ => none, branches := fun _ => none,
    addressOk := fun _ => false, products := fun _ => none, orders := fun _ => none,
    rooms := fun _ => [] }

/-- A retail order line snapshot with explicit money literals. -/
def mkRetailItem (pid : ProductId) (units : Nat) (price total : ℚ) : OrderItem :=
  { product := pid, mode := .retail, unitsBought := units, unitPrice := price,
    totalPrice := total, bundlesBought := 0, basePrice := price,
    discountPrice := none, subscriptionPrice := none, unitPerSubscription := none }

/-- World for the creation/acceptance stock scenario: non-subscriber customer 7,
branch 2, partner 3 at branch 2, product 1 in stock 10. -/
def stC1 : St :=
  { customers := fun i => if i = 7 then some { isSubscription := false } else none,
    partners := fun i => if i = 3 then some { branch := 2 } else none,
    branches := fun i => if i = 2 then some { lat := 0, lng := 0 } else none,
    addressOk := fun _ => true,
    products := fun i => if i = 1 then some prodA else none,
    orders := fun _ => none,
    rooms := fun _ => [] }

/-- Request of the creation/acceptance stock scenario: 3 units of product 1
(frontend delivery fee supplied). -/
def reqC1 : CreateReq :=
  { userId := 7, items := [{ id := 1, count := 3 }], branch := 2,
    frontendDeliveryFee := some 0 }

/-- A pending two-line order: 2 units of product 1, 5 units of product 2. -/
def ordC2 : Order :=
  { customer := 7, branch := 2,
    items := [mkRetailItem 1 2 100 200, mkRetailItem 2 5 50 250],
    totalPrice := 450, deliveryFee := 0, status := .pending }

/-- World for the partial-decrement scenario: order 9 pending, product 1 in
stock 10, product 2 in stock 3 (insufficient for its 5-unit line). -/
def stC2 : St :=
  { baseSt with
    partners := fun i => if i = 3 then some { branch := 2 } else none,
    products := fun i => if i = 1 then some prodA else
      if i = 2 then some prodLow else none,
    orders := fun i => if i = 9 then some ordC2 else none }

/-- A pending order with no delivery partner bound (the only reachable shape
of a pending order). -/
def ordC5 : Order :=
  { customer := 7, branch := 2, items := [], totalPrice := 100, deliveryFee := 0,
    status := .pending }

/-- World for the pending status-update scenario: partner 3, order 9 pending
with no bound partner. -/
def stC5 : St :=
  { baseSt with
    partners := fun i => if i = 3 then some { branch := 2 } else none,
    orders := fun i => if i = 9 then some ordC5 else none }

/-- The same pending order with partner 3 hypothetically already bound. -/
def ordC5b : Order := { ordC5 with deliveryPartner := some 3 }

/-- stC5 with order 9 replaced by the partner-bound pending order. -/
def stC5b : St :=
  { stC5 with orders := fun i => if i = 9 then some ordC5b else none }

/-- An accepted order bound to delivery partner 3. -/
def ordC6 : Order :=
  { customer := 7, branch := 2, items := [], totalPrice := 100, deliveryFee := 0,
    status := .accepted, deliveryStatus := .partnerAssigned,
    deliveryPartner := some 3 }

/-- World for the rebinding scenario: partners 3 and 4, order 9 accepted and
bound to partner 3. -/
def stC6 : St :=
  { baseSt with
    partners := fun i => if i = 3 ∨ i = 4 then some { branch := 2 } else none,
    orders := fun i => if i = 9 then some ordC6 else none }

/-- An in-progress order with one 3-unit line on product 1. -/
def ordC7 : Order :=
  { customer := 7, branch := 2, items := [mkRetailItem 1 3 100 300],
    totalPrice := 300, deliveryFee := 0, status := .inProgress,
    deliveryStatus := .onTheWay, deliveryPartner := some 3 }

/-- World for the cancellation scenario: order 9 in progress, product 1 in
stock 10. -/
def stC7 : St :=
  { baseSt with
    partners := fun i => if i = 3 then some { branch := 2 } else none,
    products := fun i => if i = 1 then some prodA else none,
    orders := fun i => if i = 9 then some ordC7 else none }

/-- An awaitconfirmation order of customer 5 bound to partner 3. -/
def ordC9 : Order :=
  { customer := 5, branch := 2, items := [], totalPrice := 100, deliveryFee := 0,
    status := .awaitconfirmation, deliveryStatus := .dsDelivered,
    deliveryPartner := some 3 }

/-- World for the terminal-cleanup scenario: order 9 awaiting confirmation. -/
def stC9 : St :=
  { baseSt with
    partners := fun i => if i = 3 then some { branch := 2 } else none,
    orders := fun i => if i = 9 then some ordC9 else none }

/-- World for the non-subscriber retail pricing scenario: customer 7 not
subscribed, products 1 and 2 priced 100 and 50. -/
def stC8 : St :=
  { customers := fun i => if i = 7 then some { isSubscription := false } else none,
    partners := fun _ => none,
    branches := fun i => if i = 2 then some { lat := 0, lng := 0 } else none,
    addressOk := fun _ => true,
    products := fun i => if i = 1 then some prodA else
      if i = 2 then some prodB else none,
    orders := fun _ => none,
    rooms := fun _ => [] }

/-- Request of the retail pricing scenario: 2 units of product 1, 1 unit of
product 2. -/
def reqC8 : CreateReq :=
  { userId := 7, items := [{ id := 1, count := 2 }, { id := 2, count := 1 }],
    branch := 2 }

/-- World for the COD gate scenario: subscriber customer 7, wholesale product
3 in stock 100. -/
def stC10 : St :=
  { customers := fun i => if i = 7 then some { isSubscription := true } else none,
    partners := fun _ => none,
    branches := fun i => if i = 2 then some { lat := 0, lng := 0 } else none,
    addressOk := fun _ => true,
    products := fun i => if i = 3 then some prodW else none,
    orders := fun _ => none,
    rooms := fun _ => [] }

/-- COD request below the threshold: 10 units of product 3 (wholesale total
400). -/
def reqC10small : CreateReq :=
  { userId := 7, items := [{ id := 3, count := 10 }], branch := 2,
    paymentMode := .cod }

/-- COD request meeting the threshold: 70 units of product 3 (wholesale total
2800). -/
def reqC10big : CreateReq :=
  { userId := 7, items := [{ id := 3, count := 70 }], branch := 2,
    paymentMode := .cod }

/-- Whether a createOrder result is a persisted (non-preview) order. -/
def createdOk : Except ApiErr CreateOut → Bool
  | .ok (.created _ _) => true
  | _ => false

/-- A pending one-line order: 2 units of product 1. -/
def ordW2 : Order :=
  { customer := 7, branch := 2, items := [mkRetailItem 1 2 100 200],
    totalPrice := 200, deliveryFee := 0, status := .pending }

/-- World in which accepting order 9 succeeds: product 1 in stock 10. -/
def stW2 : St :=
  { baseSt with
    partners := fun i => if i = 3 then some { branch := 2 } else none,
    products := fun i => if i = 1 then some prodA else none,
    orders := fun i => if i = 9 then some ordW2 else none }

/-- The order confirmOrder produces when partner 4 confirms ordC6. -/
def ordC6' : Order :=
  { ordC6 with
    status := .inProgress, deliveryStatus := .partnerAssigned,
    deliveryPartner := some 4, deliveryPersonLocation := { lat := 0, lng := 0 } }

/-! Helper lemmas. -/

theorem online_ne_cod : PaymentMode.online ≠ PaymentMode.cod := by decide

theorem stockAt_decStock (ps : ProductId → Option Product) (pid : ProductId)
    (n : Nat) (q : ProductId) :
    stockAt (decStock ps pid n) q =
      if q = pid then (stockAt ps q).map fun s => s - (n : Int) else stockAt ps q := by
  by_cases h : q = pid
  · subst h
    cases hp : ps q <;> simp [stockAt, decStock, updProduct, hp]
  · simp [stockAt, decStock, updProduct, h]

theorem stockAt_incStock (ps : ProductId → Option Product) (pid : ProductId)
    (n : Nat) (q : ProductId) :
    stockAt (incStock ps pid n) q =
      if q = pid then (stockAt ps q).map fun s => s + (n : Int) else stockAt ps q := by
  by_cases h : q = pid
  · subst h
    cases hp : ps q <;> simp [stockAt, incStock, updProduct, hp]
  · simp [stockAt, incStock, updProduct, h]

theorem createOrderDec_stockAt :
    ∀ (items : List OrderItem) (ps : ProductId → Option Product) (q : ProductId),
      stockAt (createOrderDec ps items) q =
        (stockAt ps q).map fun s => s - (unitsFor q items : Int)
  | [], ps, q => by cases h : ps q <;> simp [createOrderDec, stockAt, unitsFor, h]
  | oi :: rest, ps, q => by
    simp only [createOrderDec]
    rw [createOrderDec_stockAt rest, stockAt_decStock]
    by_cases hq : q = oi.product
    · subst hq
      cases hp : ps oi.product with
      | none => simp [stockAt, hp]
      | some p => simp [stockAt, hp, unitsFor] <;> omega
    · cases hp : ps q with
      | none => simp [stockAt, hp, if_neg hq]
      | some p => simp [stockAt, hp, if_neg hq, unitsFor, Ne.symm hq] <;> omega

theorem cancelLoop_stockAt :
    ∀ (items : List OrderItem) (ps : ProductId → Option Product) (q : ProductId),
      stockAt (cancelLoop ps items) q =
        (stockAt ps q).map fun s => s + (unitsFor q items : Int)
  | [], ps, q => by cases h : ps q <;> simp [cancelLoop, stockAt, unitsFor, h]
  | item :: rest, ps, q => by
    simp only [cancelLoop]
    by_cases hu : item.unitsBought ≠ 0
    · rw [if_pos hu, cancelLoop_stockAt rest, stockAt_incStock]
      by_cases hq : q = item.product
      · subst hq
        cases hp : ps item.product with
        | none => simp [stockAt, hp]
        | some p => simp [stockAt, hp, unitsFor] <;> omega
      · cases hp : ps q with
        | none => simp [stockAt, hp, if_neg hq]
        | some p => simp [stockAt, hp, if_neg hq, unitsFor, Ne.symm hq] <;> omega
    · rw [if_neg hu, cancelLoop_stockAt rest]
      have hu0 : item.unitsBought = 0 := by omega
      cases hp : ps q <;> simp [unitsFor, stockAt, hp, hu0]

theorem acceptLoop_ok_stockAt :
    ∀ (items : List OrderItem) (ps ps' : ProductId → Option Product),
      acceptLoop ps items = (ps', none) → ∀ q : ProductId,
        stockAt ps' q = (stockAt ps q).map fun s => s - (unitsFor q items : Int)
  | [], ps, ps', h, q => by
    simp only [acceptLoop, Prod.mk.injEq, and_true] at h
    subst h
    cases hq : ps q <;> simp [stockAt, unitsFor, hq]
  | item :: rest, ps, ps', h, q => by
    simp only [acceptLoop] at h
    by_cases hu : item.unitsBought ≠ 0
    · rw [if_pos hu] at h
      split at h
      · simp at h
      · split at h
        · simp at h
        · rw [acceptLoop_ok_stockAt rest _ _ h q, stockAt_decStock]
          by_cases hq : q = item.product
          · subst hq
            cases hpq : ps item.product with
            | none => simp [stockAt, hpq]
            | some p => simp [stockAt, hpq, unitsFor] <;> omega
          · cases hpq : ps q with
            | none => simp [stockAt, hpq, if_neg hq]
            | some p => simp [stockAt, hpq, if_neg hq, unitsFor, Ne.symm hq] <;> omega
    · rw [if_neg hu] at h
      rw [acceptLoop_ok_stockAt rest _ _ h q]
      have hu0 : item.unitsBought = 0 := by omega
      cases hpq : ps q <;> simp [unitsFor, stockAt, hpq, hu0]

/-- Claim C4: for an eligible customer and a product with bundle data set
(positive subscriptionPrice sp and unitPerSubscription ups), a line of
`units` units is priced wholesale at bundleCount × sp + remainder ×
retailUnit, with bundleCount = units / ups and remainder = units % ups, if
and only if at least one bundle fits and that wholesale total is strictly
below the retail total; otherwise the line is priced retail.  The decision
is a function of the single product and unit count only. -/
theorem c4_per_line_wholesale_choice (p : Product) (units : Nat) (sp : ℚ) (ups : Nat)
    (hsp : p.subscriptionPrice = some sp) (hsp0 : sp ≠ 0)
    (hups : p.unitPerSubscription = some ups) (hups0 : ups ≠ 0) :
    ((calculateOptimalPricing true p units).mode = Mode.wholesale ↔
      (1 ≤ units / ups ∧
        ((units / ups : Nat) : ℚ) * sp + ((units % ups : Nat) : ℚ) * retailUnit p <
          retailUnit p * (units : ℚ)))
    ∧ ((1 ≤ units / ups ∧
        ((units / ups : Nat) : ℚ) * sp + ((units % ups : Nat) : ℚ) * retailUnit p <
          retailUnit p * (units : ℚ)) →
      calculateOptimalPricing true p units =
        { mode := Mode.wholesale, unitsBought := units, bundlesBought := units / ups,
          totalPrice :=
            ((units / ups : Nat) : ℚ) * sp + ((units % ups : Nat) : ℚ) * retailUnit p,
          unitPrice :=
            (((units / ups : Nat) : ℚ) * sp + ((units % ups : Nat) : ℚ) * retailUnit p) /
              (units : ℚ) })
    ∧ (¬(1 ≤ units / ups ∧
        ((units / ups : Nat) : ℚ) * sp + ((units % ups : Nat) : ℚ) * retailUnit p <
          retailUnit p * (units : ℚ)) →
      calculateOptimalPricing true p units =
        { mode := Mode.retail, unitsBought := units, bundlesBought := 0,
          totalPrice := retailUnit p * (units : ℚ), unitPrice := retailUnit p }) := by
  by_cases hbc : 0 < units / ups
  · have hbc1 : 1 ≤ units / ups := hbc
    by_cases hlt :
      ((units / ups : Nat) : ℚ) * sp + ((units % ups : Nat) : ℚ) * retailUnit p <
        retailUnit p * (units : ℚ)
    · refine ⟨?_, ?_, ?_⟩
      · simp [calculateOptimalPricing, truthyQ, truthyN, hsp, hups, hsp0, hups0,
          hbc, hlt, hbc1]
      · intro _
        simp [calculateOptimalPricing, truthyQ, truthyN, hsp, hups, hsp0, hups0,
          hbc, hlt]
      · intro hcon
        exact absurd ⟨hbc1, hlt⟩ hcon
    · refine ⟨?_, ?_, ?_⟩
      · simp [calculateOptimalPricing, truthyQ, truthyN, hsp, hups, hsp0, hups0,
          hbc, hlt]
      · intro hcon
        exact absurd hcon.2 hlt
      · intro _
        simp [calculateOptimalPricing, truthyQ, truthyN, hsp, hups, hsp0, hups0,
          hbc, hlt]
  · have hbc1 : ¬(1 ≤ units / ups) := hbc
    refine ⟨?_, ?_, ?_⟩
    · simp [calculateOptimalPricing, truthyQ, truthyN, hsp, hups, hsp0, hups0,
        hbc, hbc1]
    · intro hcon
      exact absurd hcon.1 hbc1
    · intro _
      simp [calculateOptimalPricing, truthyQ, truthyN, hsp, hups, hsp0, hups0, hbc]

/-- Witness for C4: 10 units of the bundle-of-5-at-200 product with retail
unit 50 select wholesale (400 strictly below 500). -/
theorem c4_per_line_wholesale_choice_witness :
    (calculateOptimalPricing true prodW 10).mode = Mode.wholesale := by
  have h :=
    (c4_per_line_wholesale_choice prodW 10 200 5 rfl (by norm_num) rfl
      (by norm_num)).1
  rw [h]
  refine ⟨by norm_num, ?_⟩
  norm_num [retailUnit, prodW]

/-- Claim C3: with an eligible customer, when the tentatively priced cart sums
below the 2500 threshold the whole cart is recomputed at retail (every line
retail with unitPrice = discountPrice ?? basePrice and no bundles), and when
it meets the threshold the tentative wholesale-aware pricing is kept
unchanged. -/
theorem c3_wholesale_gate (products : ProductId → Option Product)
    (items : List CartItem) (cis : List ComputedItem)
    (hfp : firstPass products true items = .ok cis) :
    (cartSum cis < THRESHOLD →
      priceCart products true items =
        .ok { items := cis.map forceRetail, cartTotal := cartSum (cis.map forceRetail),
              wholesaleEligible := false } ∧
      ∀ ci ∈ cis.map forceRetail,
        ci.pricing.mode = Mode.retail ∧ ci.pricing.unitPrice = retailUnit ci.product ∧
        ci.pricing.bundlesBought = 0 ∧
        ci.pricing.totalPrice = retailUnit ci.product * (ci.pricing.unitsBought : ℚ))
    ∧ (THRESHOLD ≤ cartSum cis →
      priceCart products true items =
        .ok { items := cis, cartTotal := cartSum cis, wholesaleEligible := true }) := by
  constructor
  · intro hlt
    constructor
    · simp [priceCart, hfp, not_le.mpr hlt]
    · intro ci hci
      rcases List.mem_map.mp hci with ⟨cj, _, rfl⟩
      simp [forceRetail]
  · intro hge
    simp [priceCart, hfp, hge]

/-- Witness for C3: an eligible cart of 2 bundle-priced units totals 8 under
wholesale pricing, fails the 2500 gate, and is recomputed at retail. -/
theorem c3_wholesale_gate_witness :
    priceCart (fun i => if i = 4 then some prodBundle else none) true
        [{ id := 4, count := 2 }] =
      .ok { items :=
              [{ productId := 4, product := prodBundle,
                 pricing := { mode := Mode.wholesale, unitsBought := 2,
                              bundlesBought := 1, totalPrice := 8,
                              unitPrice := 4 } }].map forceRetail,
            cartTotal :=
              cartSum ([{ productId := 4, product := prodBundle,
                          pricing := { mode := Mode.wholesale, unitsBought := 2,
                                       bundlesBought := 1, totalPrice := 8,
                                       unitPrice := 4 } }].map forceRetail),
            wholesaleEligible := false } := by
  have hfp : firstPass (fun i => if i = 4 then some prodBundle else none) true
      [{ id := 4, count := 2 }] =
      .ok [{ productId := 4, product := prodBundle,
             pricing := { mode := Mode.wholesale, unitsBought := 2,
                          bundlesBought := 1, totalPrice := 8, unitPrice := 4 } }] := by
    norm_num [firstPass, calculateOptimalPricing, truthyQ, truthyN, prodBundle,
      retailUnit]
  have h :=
    (c3_wholesale_gate (fun i => if i = 4 then some prodBundle else none)
      [{ id := 4, count := 2 }] _ hfp).1
  exact (h (by norm_num [cartSum, THRESHOLD])).1

/-- Claim C8: a non-subscriber cart is always priced retail: every line has
mode retail, unitPrice = discountPrice ?? basePrice and line total =
unitPrice × units, and the cart total is the sum of line totals; in the
concrete scenario (2 × 100 + 1 × 50) the created order totals 250 with all
lines retail. -/
theorem c8_nonsubscriber_retail (products : ProductId → Option Product)
    (items : List CartItem) (cr : CartResult)
    (h : priceCart products false items = .ok cr) :
    (∀ ci ∈ cr.items,
        ci.pricing.mode = Mode.retail ∧
        ci.pricing.unitPrice = retailUnit ci.product ∧
        ci.pricing.totalPrice = retailUnit ci.product * (ci.pricing.unitsBought : ℚ))
    ∧ cr.cartTotal = cartSum cr.items
    ∧ ((createOrder stC8 11 reqC8).1.orders 11).map Order.totalPrice = some 250
    ∧ ((createOrder stC8 11 reqC8).1.orders 11).map
        (fun o => o.items.all fun it => it.mode == Mode.retail) = some true := by
  obtain ⟨citems, ctot, celig⟩ := cr
  have hscen1 :
      ((createOrder stC8 11 reqC8).1.orders 11).map Order.totalPrice = some 250 := by
    norm_num [createOrder, priceCart, firstPass, calculateOptimalPricing, retailUnit,
      stC8, reqC8, prodA, prodB, cartSum, forceRetail, THRESHOLD, toOrderItem,
      round2, computeDeliveryFee, createOrderDec, decStock, updProduct, updOrder,
      online_ne_cod]
  have hscen2 :
      ((createOrder stC8 11 reqC8).1.orders 11).map
        (fun o => o.items.all fun it => it.mode == Mode.retail) = some true := by
    norm_num [createOrder, priceCart, firstPass, calculateOptimalPricing, retailUnit,
      stC8, reqC8, prodA, prodB, cartSum, forceRetail, THRESHOLD, toOrderItem,
      round2, computeDeliveryFee, createOrderDec, decStock, updProduct, updOrder,
      online_ne_cod]
  cases hfp : firstPass products false items with
  | error e => simp [priceCart, hfp] at h
  | ok cis =>
    simp only [priceCart, hfp, Bool.false_and, Bool.and_eq_true, if_false,
      Bool.false_eq_true, Except.ok.injEq, CartResult.mk.injEq] at h
    obtain ⟨h1, h2, h3⟩ := h
    subst h1
    subst h2
    subst h3
    refine ⟨?_, rfl, hscen1, hscen2⟩
    intro ci hci
    rcases List.mem_map.mp hci with ⟨cj, _, rfl⟩
    simp [forceRetail]

/-- Witness for C8: the scenario cart itself (2 units at 100, 1 unit at 50,
non-subscriber) prices to the retail cart result, and the created order
totals 250. -/
theorem c8_nonsubscriber_retail_witness :
    ((createOrder stC8 11 reqC8).1.orders 11).map Order.totalPrice = some 250 := by
  have hpc : priceCart stC8.products false reqC8.items =
      .ok { items :=
              [{ productId := 1, product := prodA,
                 pricing := { mode := Mode.retail, unitsBought := 2,
                              bundlesBought := 0, totalPrice := 200,
                              unitPrice := 100 } },
               { productId := 2, product := prodB,
                 pricing := { mode := Mode.retail, unitsBought := 1,
                              bundlesBought := 0, totalPrice := 50,
                              unitPrice := 50 } }],
            cartTotal := 250, wholesaleEligible := false } := by
    norm_num [priceCart, firstPass, calculateOptimalPricing, retailUnit, stC8,
      reqC8, prodA, prodB, cartSum, forceRetail, THRESHOLD]
  exact (c8_nonsubscriber_retail stC8.products reqC8.items _ hpc).2.2.1

/-- Claim C10: a non-preview COD createOrder succeeds only for a subscriber
whose tentative cart total meets the 2500 threshold; otherwise it is rejected
with a client error and the state (stock and orders) is untouched.  A created
COD order carries paymentStatus completed. -/
theorem c10_cod_gate (st : St) (freshId : OrderId) (req : CreateReq)
    (c : Customer) (bl : Loc) (cis : List ComputedItem)
    (hcust : st.customers req.userId = some c)
    (hb : st.branches req.branch = some bl)
    (ha : st.addressOk req.userId = true)
    (hfp : firstPass st.products c.isSubscription req.items = .ok cis)
    (hprev : req.preview = false) (hcod : req.paymentMode = .cod) :
    (¬(c.isSubscription = true ∧ THRESHOLD ≤ cartSum cis) →
      createOrder st freshId req = (st, .error ApiErr.codNotEligible))
    ∧ ((c.isSubscription = true ∧ THRESHOLD ≤ cartSum cis) →
      createdOk (createOrder st freshId req).2 = true ∧
      ((createOrder st freshId req).1.orders freshId).map Order.paymentStatus =
        some PayStatus.completed) := by
  constructor
  · intro hne
    by_cases hsub : c.isSubscription = true
    · have hth : ¬(THRESHOLD ≤ cartSum cis) := fun hth => hne ⟨hsub, hth⟩
      rw [hsub] at hfp
      simp [createOrder, priceCart, hcust, hb, ha, hfp, hprev, hcod, hsub, hth]
    · have hsub' : c.isSubscription = false := by
        cases hc : c.isSubscription
        · rfl
        · exact absurd hc hsub
      rw [hsub'] at hfp
      simp [createOrder, priceCart, hcust, hb, ha, hfp, hprev, hcod, hsub']
  · rintro ⟨hsub, hth⟩
    rw [hsub] at hfp
    constructor
    · simp [createOrder, priceCart, hcust, hb, ha, hfp, hprev, hcod, hsub, hth,
        createdOk]
    · simp [createOrder, priceCart, hcust, hb, ha, hfp, hprev, hcod, hsub, hth,
        updOrder]

/-- Witness for C10: a subscriber COD cart totalling 400 is rejected without
touching the state, and one totalling 2800 creates the order. -/
theorem c10_cod_gate_witness :
    createOrder stC10 20 reqC10small = (stC10, .error ApiErr.codNotEligible) ∧
    createdOk (createOrder stC10 21 reqC10big).2 = true := by
  have hsmall : firstPass stC10.products true reqC10small.items =
      .ok [{ productId := 3, product := prodW,
             pricing := { mode := Mode.wholesale, unitsBought := 10,
                          bundlesBought := 2, totalPrice := 400,
                          unitPrice := 40 } }] := by
    norm_num [firstPass, calculateOptimalPricing, truthyQ, truthyN, prodW,
      retailUnit, stC10]
  have hbig : firstPass stC10.products true reqC10big.items =
      .ok [{ productId := 3, product := prodW,
             pricing := { mode := Mode.wholesale, unitsBought := 70,
                          bundlesBought := 14, totalPrice := 2800,
                          unitPrice := 40 } }] := by
    norm_num [firstPass, calculateOptimalPricing, truthyQ, truthyN, prodW,
      retailUnit, stC10]
  constructor
  · exact (c10_cod_gate stC10 20 reqC10small { isSubscription := true }
      { lat := 0, lng := 0 } _ rfl rfl rfl hsmall rfl rfl).1
      (by norm_num [cartSum, THRESHOLD])
  · exact ((c10_cod_gate stC10 21 reqC10big { isSubscription := true }
      { lat := 0, lng := 0 } _ rfl rfl rfl hbig rfl rfl).2
      ⟨rfl, by norm_num [cartSum, THRESHOLD]⟩).1

/-- Claim C1 is refuted by the code: stock is decremented at non-preview
creation AND again at acceptance.  Product 1 starts at stock 10; a non-preview
3-unit order leaves stock 7 at creation, and accepting that same order
decrements again to 4, so the decrement happens twice in one order lifetime
instead of exactly once at acceptance. -/
theorem c1_stock_decremented_at_creation_and_again_at_acceptance :
    stockAt (createOrder stC1 50 reqC1).1.products 1 = some 7 ∧
    ((acceptOrder (createOrder stC1 50 reqC1).1 50 (some 3)).1.orders 50).map
        Order.status = some OStatus.accepted ∧
    stockAt (acceptOrder (createOrder stC1 50 reqC1).1 50 (some 3)).1.products 1 =
      some 4 := by
  decide

/-- Claim C9 is refuted by the code: order events are published to the room
named by the raw order id (io.to(orderId)) while the terminal cleanup calls
socketsLeave on the differently named "order-" prefixed room, so a subscriber
of the event room survives the cleanup: after customer 5 confirms delivery of
order 9, client 77 still receives publishes to the event room, while the
"order-9" room (already empty) is the one that was cleared. -/
theorem c9_terminal_cleanup_misses_event_room :
    ((confirmDeliveryReceipt (joinOrderRoom stC9 9 77) 9 5).1.orders 9).map
        Order.status = some OStatus.delivered ∧
    publishRecipients (confirmDeliveryReceipt (joinOrderRoom stC9 9 77) 9 5).1
        (orderEventRoom 9) = [77] ∧
    (confirmDeliveryReceipt (joinOrderRoom stC9 9 77) 9 5).1.rooms
        (orderRoomLeaveName 9) = [] := by
  decide

/-- Claim C2 is refuted at a concrete input: accepting pending order 9 whose
second line (5 units of product 2, stock 3) fails re-validation returns the
InsufficientStock error with the order document unchanged, yet the first
line's stock has already been decremented from 10 to 8. -/
theorem c2_counterexample :
    (acceptOrder stC2 9 (some 3)).2 = .error (ApiErr.insufficientStock 2) ∧
    stockAt (acceptOrder stC2 9 (some 3)).1.products 1 = some 8 ∧
    (acceptOrder stC2 9 (some 3)).1.orders 9 = stC2.orders 9 := by
  decide

/-- Claim C2 as amended: the per-line acceptOrder loop is check-then-decrement
in sequence, not all-or-nothing.  On any failure the order document is
unchanged but the stock reflects the partial decrements performed before the
failing line (the products table equals the loop's first component); when
every line passes, the order is accepted and every line's stock is
decremented by its unitsBought. -/
theorem c2_accept_partial_decrement (st : St) (oid : OrderId) (pid : PartnerId)
    (order : Order) (partner : Partner)
    (ho : st.orders oid = some order) (hs : order.status = .pending)
    (hp : st.partners pid = some partner) (hbr : partner.branch = order.branch) :
    ((acceptOrder st oid (some pid)).1.products =
      (acceptLoop st.products order.items).1)
    ∧ (∀ e, (acceptOrder st oid (some pid)).2 = .error e →
        (acceptOrder st oid (some pid)).1.orders = st.orders)
    ∧ ((acceptLoop st.products order.items).2 = none →
        ((acceptOrder st oid (some pid)).1.orders oid).map Order.status =
          some OStatus.accepted ∧
        ∀ q, stockAt (acceptOrder st oid (some pid)).1.products q =
          (stockAt st.products q).map fun s => s - (unitsFor q order.items : Int)) := by
  rcases hal : acceptLoop st.products order.items with ⟨ps, e?⟩
  cases e? with
  | none =>
    refine ⟨?_, ?_, ?_⟩
    · simp [acceptOrder, ho, hp, hs, hbr, hal]
    · intro e he
      simp [acceptOrder, ho, hp, hs, hbr, hal] at he
    · intro _
      constructor
      · simp [acceptOrder, ho, hp, hs, hbr, hal, updOrder]
      · intro q
        have heff := acceptLoop_ok_stockAt order.items st.products ps hal q
        simp only [acceptOrder, ho, hp, hs, hbr, hal]
        simp [heff]
  | some e =>
    refine ⟨?_, ?_, ?_⟩
    · simp [acceptOrder, ho, hp, hs, hbr, hal]
    · intro e' _
      simp [acceptOrder, ho, hp, hs, hbr, hal]
    · intro hc
      simp at hc

/-- Witness for C2: in the one-line world where re-validation passes, the
accepted order's line is decremented from 10 to 8. -/
theorem c2_accept_partial_decrement_witness :
    stockAt (acceptOrder stW2 9 (some 3)).1.products 1 = some 8 := by
  have h :=
    (c2_accept_partial_decrement stW2 9 3 ordW2 { branch := 2 } rfl rfl rfl rfl).2.2
  have h2 := (h (by decide)).2 1
  rw [h2]
  decide

/-- Claim C5 is refuted at a concrete input: a direct status update
pending → in-progress does not fail with an invalid-transition client error.
On the reachable shape of a pending order (no partner bound) the handler
dereferences the unset deliveryPartner and fails with an internal server
error, and if a partner were bound the transition would succeed outright
because the adjacency table has no entry for pending. -/
theorem c5_counterexample :
    (updateOrderStatus stC5 9 3 OStatus.inProgress none).2 =
      .error ApiErr.serverError ∧
    ((updateOrderStatus stC5b 9 3 OStatus.inProgress none).1.orders 9).map
        Order.status = some OStatus.inProgress ∧
    (updateOrderStatus stC5b 9 3 OStatus.inProgress none).2 ≠
      .error (ApiErr.invalidTransition (OStatus.pending).str (OStatus.inProgress).str) := by
  decide

/-- Claim C5 as amended: a status update on a pending order with no bound
partner fails with an internal server error (TypeError on the unset
deliveryPartner) leaving the state unchanged; with a bound matching partner
any target status is accepted because pending has no adjacency-table entry;
and any status update on a delivered or cancelled order fails with the
cannot-update client error leaving the state unchanged. -/
theorem c5_pending_update_behaviour (st : St) (oid : OrderId) (uid : PartnerId)
    (newStatus : OStatus) (loc? : Option Loc) (order : Order) (partner : Partner)
    (hp : st.partners uid = some partner) (ho : st.orders oid = some order) :
    (order.status = .pending → order.deliveryPartner = none →
      updateOrderStatus st oid uid newStatus loc? = (st, .error ApiErr.serverError))
    ∧ (order.status = .pending → order.deliveryPartner = some uid →
      ((updateOrderStatus st oid uid newStatus loc?).1.orders oid).map Order.status =
        some newStatus)
    ∧ ((order.status = .delivered ∨ order.status = .cancelled) →
      updateOrderStatus st oid uid newStatus loc? = (st, .error ApiErr.cannotUpdate)) := by
  refine ⟨?_, ?_, ?_⟩
  · intro hpend hdp
    simp [updateOrderStatus, hp, ho, hpend, hdp]
  · intro hpend hdp
    simp [updateOrderStatus, hp, ho, hpend, hdp, validTransitions, updOrder]
  · intro hterm
    rcases hterm with h | h <;> simp [updateOrderStatus, hp, ho, h]

/-- Witness for C5: in the concrete pending worlds, the unbound-partner update
returns the internal server error and the bound-partner update sets
in-progress. -/
theorem c5_pending_update_behaviour_witness :
    updateOrderStatus stC5 9 3 OStatus.inProgress none =
      (stC5, .error ApiErr.serverError) ∧
    ((updateOrderStatus stC5b 9 3 OStatus.inProgress none).1.orders 9).map
        Order.status = some OStatus.inProgress := by
  constructor
  · exact (c5_pending_update_behaviour stC5 9 3 OStatus.inProgress none ordC5
      { branch := 2 } rfl rfl).1 rfl rfl
  · exact (c5_pending_update_behaviour stC5b 9 3 OStatus.inProgress none ordC5b
      { branch := 2 } rfl rfl).2.1 rfl rfl

/-- The persisted order of a transition keeps deliveryPartner when the written
document does. -/
theorem updOrder_map_dp (os : OrderId → Option Order) (oid : OrderId)
    (order o' : Order) (ho : os oid = some order)
    (hdp : o'.deliveryPartner = order.deliveryPartner) (q : OrderId) :
    (updOrder os oid o' q).map Order.deliveryPartner =
      (os q).map Order.deliveryPartner := by
  by_cases hq : q = oid
  · subst hq
    simp [updOrder, ho, hdp]
  · simp [updOrder, hq]

/-- Claim C6 is refuted at a concrete input: order 9 is accepted and bound to
partner 3, yet partner 4's confirmOrder succeeds and rebinds deliveryPartner
to 4. -/
theorem c6_counterexample :
    (stC6.orders 9).map Order.deliveryPartner = some (some 3) ∧
    ((confirmOrder stC6 9 4 { lat := 0, lng := 0 }).1.orders 9).map
        Order.deliveryPartner = some (some 4) ∧
    ((confirmOrder stC6 9 4 { lat := 0, lng := 0 }).1.orders 9).map
        Order.status = some OStatus.inProgress := by
  decide

/-- Claim C6 as amended: deliveryPartner is bound at acceptance and rebound by
confirmOrder, which assigns the calling partner to any accepted order without
checking the existing binding; pickupOrder, markOrderAsDelivered,
updateOrderStatus and updateDeliveryPartnerLocation never change
deliveryPartner. -/
theorem c6_partner_rebound_only_by_confirm (st : St) (oid : OrderId) :
    (∀ (uid : PartnerId) (loc : Loc) (o' : Order),
      (confirmOrder st oid uid loc).2 = .ok o' → o'.deliveryPartner = some uid)
    ∧ (∀ (pid? : Option PartnerId) (loc? : Option Loc) (q : OrderId),
      ((pickupOrder st oid pid? loc?).1.orders q).map Order.deliveryPartner =
        (st.orders q).map Order.deliveryPartner)
    ∧ (∀ (pid? : Option PartnerId) (loc? : Option Loc) (q : OrderId),
      ((markOrderAsDelivered st oid pid? loc?).1.orders q).map Order.deliveryPartner =
        (st.orders q).map Order.deliveryPartner)
    ∧ (∀ (uid : PartnerId) (ns : OStatus) (loc? : Option Loc) (q : OrderId),
      ((updateOrderStatus st oid uid ns loc?).1.orders q).map Order.deliveryPartner =
        (st.orders q).map Order.deliveryPartner)
    ∧ (∀ (pid? : Option PartnerId) (loc? : Option Loc) (q : OrderId),
      ((updateDeliveryPartnerLocation st oid pid? loc?).1.orders q).map
          Order.deliveryPartner =
        (st.orders q).map Order.deliveryPartner) := by
  refine ⟨?_, ?_, ?_, ?_, ?_⟩
  · intro uid loc o' hok
    rcases hpar : st.partners uid with _ | partner
    · simp [confirmOrder, hpar] at hok
    rcases ho : st.orders oid with _ | order
    · simp [confirmOrder, hpar, ho] at hok
    by_cases hst : order.status = OStatus.accepted
    · simp [confirmOrder, hpar, ho, hst] at hok
      rw [← hok]
    · simp [confirmOrder, hpar, ho, hst] at hok
  · intro pid? loc? q
    rcases pid? with _ | pid
    · rfl
    rcases ho : st.orders oid with _ | order
    · simp [pickupOrder, ho]
    by_cases hst : order.status = OStatus.accepted
    · rcases hdp : order.deliveryPartner with _ | dp
      · simp [pickupOrder, ho, hst, hdp]
      by_cases hdu : dp = pid
      · simp [pickupOrder, ho, hst, hdp, hdu]
        exact updOrder_map_dp st.orders oid order _ ho (by rw [hdp, hdu]) q
      · simp [pickupOrder, ho, hst, hdp, hdu]
    · simp [pickupOrder, ho, hst]
  · intro pid? loc? q
    rcases pid? with _ | pid
    · rfl
    rcases ho : st.orders oid with _ | order
    · simp [markOrderAsDelivered, ho]
    by_cases hst : order.status = OStatus.inProgress
    · rcases hdp : order.deliveryPartner with _ | dp
      · simp [markOrderAsDelivered, ho, hst, hdp]
      by_cases hdu : dp = pid
      · simp [markOrderAsDelivered, ho, hst, hdp, hdu]
        exact updOrder_map_dp st.orders oid order _ ho (by rw [hdp, hdu]) q
      · simp [markOrderAsDelivered, ho, hst, hdp, hdu]
    · simp [markOrderAsDelivered, ho, hst]
  · intro uid ns loc? q
    rcases hpar : st.partners uid with _ | partner
    · simp [updateOrderStatus, hpar]
    rcases ho : st.orders oid with _ | order
    · simp [updateOrderStatus, hpar, ho]
    by_cases hterm : order.status = OStatus.delivered ∨ order.status = OStatus.cancelled
    · simp [updateOrderStatus, hpar, ho, hterm]
    rcases hdp : order.deliveryPartner with _ | dp
    · simp [updateOrderStatus, hpar, ho, hterm, hdp]
    by_cases hdu : dp = uid
    · rcases hvt : validTransitions order.status with _ | allowed
      · simp [updateOrderStatus, hpar, ho, hterm, hdp, hdu, hvt]
        exact updOrder_map_dp st.orders oid order _ ho (by rw [hdp, hdu]) q
      · by_cases hin : ns ∈ allowed
        · simp [updateOrderStatus, hpar, ho, hterm, hdp, hdu, hvt, hin]
          exact updOrder_map_dp st.orders oid order _ ho (by rw [hdp, hdu]) q
        · simp [updateOrderStatus, hpar, ho, hterm, hdp, hdu, hvt, hin]
    · simp [updateOrderStatus, hpar, ho, hterm, hdp, hdu]
  · intro pid? loc? q
    rcases pid? with _ | pid
    · rfl
    rcases loc? with _ | loc
    · rfl
    rcases ho : st.orders oid with _ | order
    · simp [updateDeliveryPartnerLocation, ho]
    rcases hdp : order.deliveryPartner with _ | dp
    · simp [updateDeliveryPartnerLocation, ho, hdp]
    by_cases hdu : dp = pid
    · simp [updateDeliveryPartnerLocation, ho, hdp, hdu]
      exact updOrder_map_dp st.orders oid order _ ho (by rw [hdp, hdu]) q
    · simp [updateDeliveryPartnerLocation, ho, hdp, hdu]

/-- Witness for C6: partner 4's confirmation of order 9 (bound to partner 3)
produces an order bound to partner 4. -/
theorem c6_partner_rebound_only_by_confirm_witness :
    ordC6'.deliveryPartner = some 4 := by
  exact (c6_partner_rebound_only_by_confirm stC6 9).1 4 { lat := 0, lng := 0 }
    ordC6' (by decide)

/-- Claim C7: cancelOrder on a non-terminal order with a reason sets status to
cancelled and restores each line's stock exactly once (every product's stock
rises by the summed unitsBought of its lines), and re-cancelling the same
order then fails; on a delivered or cancelled order cancelOrder fails with the
cannot-cancel client error and the state is unchanged, so no stock is
restored. -/
theorem c7_cancel_restores_stock_once (st : St) (oid : OrderId) (reason : String)
    (order : Order) (ho : st.orders oid = some order) (hr : reason ≠ "") :
    (order.status ≠ .delivered ∧ order.status ≠ .cancelled →
      ((cancelOrder st oid reason).1.orders oid).map Order.status =
        some OStatus.cancelled ∧
      (∀ q, stockAt (cancelOrder st oid reason).1.products q =
        (stockAt st.products q).map fun s => s + (unitsFor q order.items : Int)) ∧
      (cancelOrder (cancelOrder st oid reason).1 oid reason).2 =
        .error ApiErr.cannotCancel)
    ∧ ((order.status = .delivered ∨ order.status = .cancelled) →
      cancelOrder st oid reason = (st, .error ApiErr.cannotCancel)) := by
  constructor
  · rintro ⟨h1, h2⟩
    have hguard : ¬(order.status = OStatus.delivered ∨ order.status = OStatus.cancelled) := by
      rintro (h | h)
      · exact h1 h
      · exact h2 h
    refine ⟨?_, ?_, ?_⟩
    · simp [cancelOrder, hr, ho, hguard, updOrder]
    · intro q
      simp [cancelOrder, hr, ho, hguard]
      exact cancelLoop_stockAt order.items st.products q
    · simp [cancelOrder, hr, ho, hguard, updOrder]
  · intro hterm
    simp [cancelOrder, hr, ho, hterm]

/-- Witness for C7: cancelling the in-progress order 9 (3 units of product 1,
stock 10) marks it cancelled and restores product 1 to stock 13. -/
theorem c7_cancel_restores_stock_once_witness :
    ((cancelOrder stC7 9 "user-request").1.orders 9).map Order.status =
      some OStatus.cancelled ∧
    stockAt (cancelOrder stC7 9 "user-request").1.products 1 = some 13 := by
  have h := (c7_cancel_restores_stock_once stC7 9 "user-request" ordC7 rfl
    (by decide)).1 ⟨by decide, by decide⟩
  refine ⟨h.1, ?_⟩
  have h2 := h.2.1 1
  rw [h2]
  decide

end AgStore
